import Mathlib

/-!
Verification of the afferent native renderer layer against its
specification, by shallow embedding of the C sources in Lean 4.

Modelling conventions:
  - C `float` / `double` values are modelled as exact rationals (`ℚ`);
    the narrowing casts `(float)x` between the bridge and the core are
    the identity in this model.
  - C `size_t` / `uint32_t` indices and counts are modelled as `ℕ`.
  - A C array of floats is modelled as a `List ℚ`; an in-bounds store
    `a[i] = v` is `List.set i v` and a load `a[i]` is `List.getD i 0`.
  - Fallible bridge entry points return a `LeanIOResult`, mirroring
    `lean_io_result_mk_ok` / `lean_io_result_mk_error`.
-/

/-! ### FloatBuffer (src/native/src/float_buffer.c)

`struct AfferentFloatBuffer` owns a `float*` of fixed capacity; the
capacity is the length of the modelled list. -/

structure AfferentFloatBuffer where
  data : List ℚ
deriving DecidableEq

/-- Embeds `afferent_float_buffer_create`: allocates and zero-initializes
`capacity` floats (the `memset` to 0). Allocation failure is an
out-of-memory event outside the model. -/
def afferent_float_buffer_create (capacity : ℕ) : AfferentFloatBuffer :=
  ⟨List.replicate capacity 0⟩

/-- Embeds `afferent_float_buffer_set`: unchecked store `buf->data[index] = value`. -/
def afferent_float_buffer_set (buf : AfferentFloatBuffer) (index : ℕ) (value : ℚ) :
    AfferentFloatBuffer :=
  ⟨buf.data.set index value⟩

/-- Embeds `afferent_float_buffer_get`: unchecked load `buf->data[index]`. -/
def afferent_float_buffer_get (buf : AfferentFloatBuffer) (index : ℕ) : ℚ :=
  buf.data.getD index 0

/-- Embeds `afferent_float_buffer_capacity`. -/
def afferent_float_buffer_capacity (buf : AfferentFloatBuffer) : ℕ :=
  buf.data.length

/-- Embeds `afferent_float_buffer_data`: the raw read-only view of the contents. -/
def afferent_float_buffer_data (buf : AfferentFloatBuffer) : List ℚ :=
  buf.data

/-- Embeds `afferent_float_buffer_set_vec8`: eight consecutive stores
`ptr[0] = v0; ...; ptr[7] = v7` with `ptr = buf->data + index`. -/
def afferent_float_buffer_set_vec8 (buf : AfferentFloatBuffer) (index : ℕ)
    (v0 v1 v2 v3 v4 v5 v6 v7 : ℚ) : AfferentFloatBuffer :=
  ⟨buf.data.set index v0 |>.set (index + 1) v1 |>.set (index + 2) v2
    |>.set (index + 3) v3 |>.set (index + 4) v4 |>.set (index + 5) v5
    |>.set (index + 6) v6 |>.set (index + 7) v7⟩

/-- Modelled from the spec: `afferent_float_buffer_set_vec5` is called by the
bridge (`lean_afferent_float_buffer_set_vec5` and
`lean_afferent_float_buffer_write_sprites_from_particles` in
src/native/src/lean_bridge.c) but its C definition is not among the sources
at hand. Per the spec, `set_vec(index, v0..vN)` batch-writes N consecutive
floats starting at `index`; here N = 5. -/
def afferent_float_buffer_set_vec5 (buf : AfferentFloatBuffer) (index : ℕ)
    (v0 v1 v2 v3 v4 : ℚ) : AfferentFloatBuffer :=
  ⟨buf.data.set index v0 |>.set (index + 1) v1 |>.set (index + 2) v2
    |>.set (index + 3) v3 |>.set (index + 4) v4⟩

/-! ### Bridge result type (src/native/src/lean_bridge.c) -/

/-- Models a `lean_obj_res` produced by `lean_io_result_mk_ok` /
`lean_io_result_mk_error(lean_mk_io_user_error(lean_mk_string msg))`. -/
inductive LeanIOResult (α : Type) where
  | ok : α → LeanIOResult α
  | error : String → LeanIOResult α
deriving DecidableEq

/-! ### Instanced draw calls (src/native/src/lean_bridge.c)

The renderer-visible effect of a bridge draw call is modelled as
`Option DrawCall`: `none` when no draw command is issued, and
`some ⟨data, count⟩` when `afferent_renderer_draw_instanced_*` is invoked
with the converted float array and the instance count. -/

structure DrawCall where
  data : List ℚ
  count : ℕ
deriving DecidableEq

/-- Embeds `lean_afferent_renderer_draw_instanced_rects`: if
`arr_size < instance_count * 8 || instance_count == 0`, returns ok and
issues no draw (silent fail on invalid input); otherwise converts the
array and calls `afferent_renderer_draw_instanced_rects`. -/
def lean_afferent_renderer_draw_instanced_rects (instance_data : List ℚ)
    (instance_count : ℕ) : LeanIOResult Unit × Option DrawCall :=
  if instance_data.length < instance_count * 8 ∨ instance_count = 0 then
    (.ok (), none)
  else
    (.ok (), some ⟨instance_data, instance_count⟩)

/-- Embeds `lean_afferent_renderer_draw_instanced_triangles` (same guard). -/
def lean_afferent_renderer_draw_instanced_triangles (instance_data : List ℚ)
    (instance_count : ℕ) : LeanIOResult Unit × Option DrawCall :=
  if instance_data.length < instance_count * 8 ∨ instance_count = 0 then
    (.ok (), none)
  else
    (.ok (), some ⟨instance_data, instance_count⟩)

/-- Embeds `lean_afferent_renderer_draw_instanced_circles` (same guard). -/
def lean_afferent_renderer_draw_instanced_circles (instance_data : List ℚ)
    (instance_count : ℕ) : LeanIOResult Unit × Option DrawCall :=
  if instance_data.length < instance_count * 8 ∨ instance_count = 0 then
    (.ok (), none)
  else
    (.ok (), some ⟨instance_data, instance_count⟩)

/-! ### Vertex / index buffer creation (src/native/src/lean_bridge.c) -/

/-- Models `AfferentVertex`: position[2] and color[4]. -/
structure AfferentVertex where
  px : ℚ
  py : ℚ
  cr : ℚ
  cg : ℚ
  cb : ℚ
  ca : ℚ
deriving DecidableEq

/-- Embeds `lean_afferent_buffer_create_vertex`: `vertex_count = arr_size / 6`;
errors with "Empty vertex array" when `vertex_count == 0`, otherwise packs
six consecutive floats per vertex. -/
def lean_afferent_buffer_create_vertex (vertices_arr : List ℚ) :
    LeanIOResult (List AfferentVertex) :=
  let vertex_count := vertices_arr.length / 6
  if vertex_count = 0 then
    .error ("Empty vertex array")
  else
    .ok ((List.range vertex_count).map fun i =>
      ⟨vertices_arr.getD (i * 6) 0, vertices_arr.getD (i * 6 + 1) 0,
       vertices_arr.getD (i * 6 + 2) 0, vertices_arr.getD (i * 6 + 3) 0,
       vertices_arr.getD (i * 6 + 4) 0, vertices_arr.getD (i * 6 + 5) 0⟩)

/-- Embeds `lean_afferent_buffer_create_index`: errors with
"Empty index array" when `count == 0`, otherwise copies the indices. -/
def lean_afferent_buffer_create_index (indices_arr : List ℕ) :
    LeanIOResult (List ℕ) :=
  if indices_arr.length = 0 then
    .error ("Empty index array")
  else
    .ok indices_arr

/-! ### Glyph cache / text atlas (src/native/src/text_render.c)

`MAX_GLYPHS`, `GlyphInfo` and `struct AfferentFont` are embedded directly;
FreeType (`FT_Load_Char` with `FT_LOAD_RENDER`) is an external collaborator
and is modelled as a per-font rasterization oracle returning the rendered
bitmap and the metrics that `cache_glyph` reads from the glyph slot. -/

def MAX_GLYPHS : ℕ := 256

structure GlyphInfo where
  codepoint : ℕ
  advance_x : ℚ
  bearing_x : ℚ
  bearing_y : ℚ
  width : ℕ
  height : ℕ
  atlas_x : ℕ
  atlas_y : ℕ
  valid : Bool
deriving DecidableEq

/-- The zero-initialized glyph entry (state after `memset(font->glyphs, 0, ...)`). -/
def GlyphInfo.zero : GlyphInfo :=
  ⟨0, 0, 0, 0, 0, 0, 0, 0, false⟩

/-- Result of a successful `FT_Load_Char(face, codepoint, FT_LOAD_RENDER)`:
the bitmap dimensions, the metrics read from the glyph slot, and the bitmap
pixels (`bitmap->buffer[y * pitch + x]` is `pixel x y`). -/
structure GlyphBitmap where
  width : ℕ
  rows : ℕ
  advance_x : ℚ
  bearing_x : ℚ
  bearing_y : ℚ
  pixel : ℕ → ℕ → ℕ

/-- Embeds `struct AfferentFont`. The FreeType face is represented by the
`rasterize` oracle; `none` models an `FT_Load_Char` error. -/
structure AfferentFont where
  size : ℕ
  ascender : ℚ
  descender : ℚ
  line_height : ℚ
  glyphs : List GlyphInfo
  atlas_data : List ℕ
  atlas_width : ℕ
  atlas_height : ℕ
  atlas_cursor_x : ℕ
  atlas_cursor_y : ℕ
  atlas_row_height : ℕ
  rasterize : ℕ → Option GlyphBitmap

/-- Embeds the atlas row-wrap step of `cache_glyph`: if the glyph does not
fit horizontally (`cursor_x + width + 1 > atlas_width`), move to the next
row; returns the (cursor_x, cursor_y, row_height) triple after the wrap. -/
def atlas_wrap (font : AfferentFont) (bw : ℕ) : ℕ × ℕ × ℕ :=
  if font.atlas_width < font.atlas_cursor_x + bw + 1 then
    (1, font.atlas_cursor_y + font.atlas_row_height + 1, 0)
  else
    (font.atlas_cursor_x, font.atlas_cursor_y, font.atlas_row_height)

/-- Embeds the double copy loop of `cache_glyph`:
`atlas_data[(cursor_y + y) * atlas_width + (cursor_x + x)] = bitmap pixel`. -/
def copy_bitmap_to_atlas (atlas : List ℕ) (atlas_width cx cy : ℕ)
    (bm : GlyphBitmap) : List ℕ :=
  (List.range bm.rows).foldl (fun acc y =>
    (List.range bm.width).foldl (fun acc2 x =>
      acc2.set ((cy + y) * atlas_width + (cx + x)) (bm.pixel x y)) acc) atlas

/-- Embeds `cache_glyph` from text_render.c: range check, valid-entry early
return, rasterization, row wrap, vertical-space check (note the wrap is
committed to the cursor even when the vertical check then fails, exactly as
in the C code), bitmap copy, entry store and cursor advance. -/
def cache_glyph (font : AfferentFont) (codepoint : ℕ) :
    Option GlyphInfo × AfferentFont :=
  if MAX_GLYPHS ≤ codepoint then
    (none, font)
  else if (font.glyphs.getD codepoint GlyphInfo.zero).valid then
    (some (font.glyphs.getD codepoint GlyphInfo.zero), font)
  else
    match font.rasterize codepoint with
    | none => (none, font)
    | some bitmap =>
      let cx := (atlas_wrap font bitmap.width).1
      let cy := (atlas_wrap font bitmap.width).2.1
      let rh := (atlas_wrap font bitmap.width).2.2
      if font.atlas_height < cy + bitmap.rows + 1 then
        (none, { font with atlas_cursor_x := cx, atlas_cursor_y := cy,
                           atlas_row_height := rh })
      else
        let g : GlyphInfo :=
          { codepoint := codepoint, advance_x := bitmap.advance_x,
            bearing_x := bitmap.bearing_x, bearing_y := bitmap.bearing_y,
            width := bitmap.width, height := bitmap.rows,
            atlas_x := cx, atlas_y := cy, valid := true }
        (some g,
         { font with
             glyphs := font.glyphs.set codepoint g,
             atlas_data :=
               copy_bitmap_to_atlas font.atlas_data font.atlas_width cx cy bitmap,
             atlas_cursor_x := cx + bitmap.width + 1,
             atlas_cursor_y := cy,
             atlas_row_height := if rh < bitmap.rows then bitmap.rows else rh })

/-- Embeds the loop body of `afferent_text_measure`: caches the glyph and,
when it is available, accumulates its advance. -/
def measure_step (st : ℚ × AfferentFont) (c : ℕ) : ℚ × AfferentFont :=
  match cache_glyph st.2 c with
  | (some g, font2) => (st.1 + g.advance_x, font2)
  | (none, font2) => (st.1, font2)

/-- Embeds `afferent_text_measure` (non-null font and text): walks the
bytes of the text, summing advances of the glyphs that cache successfully;
the height is the line height. Returns (width, height, updated font). -/
def afferent_text_measure (font : AfferentFont) (text : List ℕ) :
    ℚ × ℚ × AfferentFont :=
  let st := text.foldl measure_step (0, font)
  (st.1, font.line_height, st.2)

/-- The atlas has no vertical space left: the write cursor has reached or
passed the bottom of the atlas, so even a zero-height glyph fails the check
`cursor_y + rows + 1 > atlas_height`. -/
def atlas_full (font : AfferentFont) : Prop :=
  font.atlas_height ≤ font.atlas_cursor_y

/-! ### Text vertex generation (src/native/src/text_render.c)

`afferent_text_generate_vertices` as defined in text_render.c. Note: the
definition in text_render.c takes no transform parameter, although the
declaration in src/native/src/metal/render.h declares one
(`const float* transform`) between `screen_height` and `out_vertices`. The
embedding follows the definition. -/

structure TextGenState where
  cursor_x : ℚ
  vertices : List ℚ
  indices : List ℕ
  vertex_count : ℕ
  font : AfferentFont

/-- Embeds one iteration of the glyph loop of
`afferent_text_generate_vertices`: cache the glyph; when it is renderable
(nonzero bitmap), emit a textured quad of 4 vertices (8 floats each:
pos, uv, color) and 6 indices in pixel space converted to NDC; finally
advance the cursor by the glyph advance. -/
def generate_step (y cr cg cb ca sw sh : ℚ) (st : TextGenState) (c : ℕ) :
    TextGenState :=
  let res := cache_glyph st.font c
  match res.1 with
  | none => { st with font := res.2 }
  | some glyph =>
    let st1 :=
      if 0 < glyph.width ∧ 0 < glyph.height then
        let gx : ℚ := st.cursor_x + glyph.bearing_x
        let gy : ℚ := y - glyph.bearing_y
        let gw : ℚ := (glyph.width : ℚ)
        let gh : ℚ := (glyph.height : ℚ)
        let x0 := (gx / sw) * 2 - 1
        let y0 := 1 - (gy / sh) * 2
        let x1 := ((gx + gw) / sw) * 2 - 1
        let y1 := 1 - ((gy + gh) / sh) * 2
        let u0 : ℚ := (glyph.atlas_x : ℚ) / (res.2.atlas_width : ℚ)
        let v0 : ℚ := (glyph.atlas_y : ℚ) / (res.2.atlas_height : ℚ)
        let u1 : ℚ := ((glyph.atlas_x + glyph.width : ℕ) : ℚ) / (res.2.atlas_width : ℚ)
        let v1 : ℚ := ((glyph.atlas_y + glyph.height : ℕ) : ℚ) / (res.2.atlas_height : ℚ)
        { st with
            vertices := st.vertices ++
              [x0, y0, u0, v0, cr, cg, cb, ca,
               x1, y0, u1, v0, cr, cg, cb, ca,
               x1, y1, u1, v1, cr, cg, cb, ca,
               x0, y1, u0, v1, cr, cg, cb, ca],
            indices := st.indices ++
              [st.vertex_count, st.vertex_count + 1, st.vertex_count + 2,
               st.vertex_count, st.vertex_count + 2, st.vertex_count + 3],
            vertex_count := st.vertex_count + 4,
            font := res.2 }
      else { st with font := res.2 }
    { st1 with cursor_x := st1.cursor_x + glyph.advance_x }

/-- Embeds `afferent_text_generate_vertices` (non-null arguments): walks the
bytes of the text and returns the vertex floats, the indices and the updated
font. An empty text returns empty output (the early-return with null
pointers and zero counts). -/
def afferent_text_generate_vertices (font : AfferentFont) (text : List ℕ)
    (x y cr cg cb ca screen_width screen_height : ℚ) :
    List ℚ × List ℕ × AfferentFont :=
  if text = [] then ([], [], font)
  else
    let st := text.foldl (generate_step y cr cg cb ca screen_width screen_height)
      ⟨x, [], [], 0, font⟩
    (st.vertices, st.indices, st.font)

/-- Modelled from the spec: the 6-float affine text transform
`[a, b, c, d, tx, ty]`. -/
structure AffineTransform where
  a : ℚ
  b : ℚ
  c : ℚ
  d : ℚ
  tx : ℚ
  ty : ℚ

/-- Modelled from the spec: the transform maps a glyph quad position by
`x' = a*x + c*y + tx`, `y' = b*x + d*y + ty` before NDC conversion. -/
def spec_transform_point (t : AffineTransform) (x y : ℚ) : ℚ × ℚ :=
  (t.a * x + t.c * y + t.tx, t.b * x + t.d * y + t.ty)

/-- Conversion of a pixel x coordinate to normalized device coordinates via
the supplied screen width, as done in `afferent_text_generate_vertices`. -/
def spec_ndc_x (screen_width px : ℚ) : ℚ :=
  (px / screen_width) * 2 - 1

/-- Conversion of a pixel y coordinate to normalized device coordinates via
the supplied screen height, as done in `afferent_text_generate_vertices`. -/
def spec_ndc_y (screen_height py : ℚ) : ℚ :=
  1 - (py / screen_height) * 2

/-! ### Fused physics and bulk writes (src/native/src/lean_bridge.c) -/

/-- Embeds the per-particle physics of the fused update loops: advance by
velocity and dt, then clamp each axis to `[r, limit - r]` negating the
velocity component on a clamped axis (the `if (x < r) ... else if (x > w - r)`
blocks). Returns (x, y, vx, vy). -/
def bounceStep (dt r w h x y vx vy : ℚ) : ℚ × ℚ × ℚ × ℚ :=
  let x1 := x + vx * dt
  let y1 := y + vy * dt
  let px := if x1 < r then (r, -vx) else if w - r < x1 then (w - r, -vx) else (x1, vx)
  let py := if y1 < r then (r, -vy) else if h - r < y1 then (h - r, -vy) else (y1, vy)
  (px.1, py.1, px.2, py.2)

/-- The per-particle step of the fused loops expressed on the particle
array: `bounceStep` applied to the 4 state floats of particle `i`. -/
def particleStep (p : List ℚ) (i : ℕ) (dt r w h : ℚ) : ℚ × ℚ × ℚ × ℚ :=
  bounceStep dt r w h (p.getD (i * 5) 0) (p.getD (i * 5 + 1) 0)
    (p.getD (i * 5 + 2) 0) (p.getD (i * 5 + 3) 0)

/-- Embeds one iteration of the loop of
`lean_afferent_particles_update_bouncing_and_write_sprites`: step and clamp
the particle, store the 4 updated state floats back, and write the sprite
record `[x, y, 0, halfSize, 1]` at the same base offset of the output. -/
def spriteBody (dt halfSize w h : ℚ) (st : List ℚ × AfferentFloatBuffer)
    (i : ℕ) : List ℚ × AfferentFloatBuffer :=
  let base := i * 5
  let q := bounceStep dt halfSize w h (st.1.getD base 0) (st.1.getD (base + 1) 0)
    (st.1.getD (base + 2) 0) (st.1.getD (base + 3) 0)
  let p2 := st.1.set base q.1 |>.set (base + 1) q.2.1
    |>.set (base + 2) q.2.2.1 |>.set (base + 3) q.2.2.2
  let out2 := afferent_float_buffer_set
    (afferent_float_buffer_set
      (afferent_float_buffer_set
        (afferent_float_buffer_set
          (afferent_float_buffer_set st.2 base q.1)
          (base + 1) q.2.1)
        (base + 2) 0)
      (base + 3) halfSize)
    (base + 4) 1
  (p2, out2)

/-- Embeds `lean_afferent_particles_update_bouncing_and_write_sprites`:
guards (count zero, particle array too short, output capacity too small)
return the inputs unchanged; otherwise runs the fused loop. -/
def lean_afferent_particles_update_bouncing_and_write_sprites
    (particle_data : List ℚ) (count : ℕ) (dt halfSize screenWidth screenHeight : ℚ)
    (sprite_buffer : AfferentFloatBuffer) : List ℚ × AfferentFloatBuffer :=
  if count = 0 then (particle_data, sprite_buffer)
  else if particle_data.length < count * 5 then (particle_data, sprite_buffer)
  else if afferent_float_buffer_capacity sprite_buffer < count * 5 then
    (particle_data, sprite_buffer)
  else
    (List.range count).foldl (spriteBody dt halfSize screenWidth screenHeight)
      (particle_data, sprite_buffer)

/-- Embeds one iteration of the loop of
`lean_afferent_particles_update_bouncing_and_write_circles`: step and clamp
the particle, store the 4 updated state floats back, and write the circle
record `[x, y, hue, radius]` at output offset `i * 4`. -/
def circleBody (dt radius w h : ℚ) (st : List ℚ × AfferentFloatBuffer)
    (i : ℕ) : List ℚ × AfferentFloatBuffer :=
  let base := i * 5
  let q := bounceStep dt radius w h (st.1.getD base 0) (st.1.getD (base + 1) 0)
    (st.1.getD (base + 2) 0) (st.1.getD (base + 3) 0)
  let hue := st.1.getD (base + 4) 0
  let p2 := st.1.set base q.1 |>.set (base + 1) q.2.1
    |>.set (base + 2) q.2.2.1 |>.set (base + 3) q.2.2.2
  let out2 := afferent_float_buffer_set
    (afferent_float_buffer_set
      (afferent_float_buffer_set
        (afferent_float_buffer_set st.2 (i * 4) q.1)
        (i * 4 + 1) q.2.1)
      (i * 4 + 2) hue)
    (i * 4 + 3) radius
  (p2, out2)

/-- Embeds `lean_afferent_particles_update_bouncing_and_write_circles`:
guards return the inputs unchanged (the output needs `4 * count` floats);
otherwise runs the fused loop. -/
def lean_afferent_particles_update_bouncing_and_write_circles
    (particle_data : List ℚ) (count : ℕ) (dt radius screenWidth screenHeight : ℚ)
    (circle_buffer : AfferentFloatBuffer) : List ℚ × AfferentFloatBuffer :=
  if count = 0 then (particle_data, circle_buffer)
  else if particle_data.length < count * 5 then (particle_data, circle_buffer)
  else if afferent_float_buffer_capacity circle_buffer < count * 4 then
    (particle_data, circle_buffer)
  else
    (List.range count).foldl (circleBody dt radius screenWidth screenHeight)
      (particle_data, circle_buffer)

/-- Embeds `lean_afferent_float_buffer_write_sprites_from_particles`: guards
(count zero, particle array shorter than `5 * count`, capacity below
`5 * count`) return the buffer unchanged; otherwise writes one 5-float
sprite record `[x, y, rot, halfSize, alpha]` per particle via `set_vec5`. -/
def lean_afferent_float_buffer_write_sprites_from_particles
    (buf : AfferentFloatBuffer) (particle_data : List ℚ) (count : ℕ)
    (halfSize rot alpha : ℚ) : AfferentFloatBuffer :=
  if count = 0 ∨ particle_data.length < count * 5 then buf
  else if afferent_float_buffer_capacity buf < count * 5 then buf
  else
    (List.range count).foldl (fun b i =>
      afferent_float_buffer_set_vec5 b (i * 5) (particle_data.getD (i * 5) 0)
        (particle_data.getD (i * 5 + 1) 0) rot halfSize alpha) buf

/-! ### Checked write refinements

To state that the bulk-write paths never store outside the buffer capacity,
each store is replayed through a bounds-checked write that fails (returns
`none`) on any out-of-range index. The safety theorems show the checked
replay succeeds and produces the very same buffer. -/

/-- Bounds-checked counterpart of `afferent_float_buffer_set`: fails instead
of storing out of range. -/
def afferent_float_buffer_set_checked (buf : AfferentFloatBuffer) (index : ℕ)
    (value : ℚ) : Option AfferentFloatBuffer :=
  if index < afferent_float_buffer_capacity buf then
    some (afferent_float_buffer_set buf index value)
  else
    none

/-- Bounds-checked counterpart of `afferent_float_buffer_set_vec5`. -/
def afferent_float_buffer_set_vec5_checked (buf : AfferentFloatBuffer)
    (index : ℕ) (v0 v1 v2 v3 v4 : ℚ) : Option AfferentFloatBuffer :=
  (afferent_float_buffer_set_checked buf index v0).bind fun b1 =>
  (afferent_float_buffer_set_checked b1 (index + 1) v1).bind fun b2 =>
  (afferent_float_buffer_set_checked b2 (index + 2) v2).bind fun b3 =>
  (afferent_float_buffer_set_checked b3 (index + 3) v3).bind fun b4 =>
  afferent_float_buffer_set_checked b4 (index + 4) v4

/-- Bounds-checked replay of the `write_sprites_from_particles` loop. -/
def write_sprites_from_particles_checked (buf : AfferentFloatBuffer)
    (particle_data : List ℚ) (count : ℕ) (halfSize rot alpha : ℚ) :
    Option AfferentFloatBuffer :=
  if count = 0 ∨ particle_data.length < count * 5 then some buf
  else if afferent_float_buffer_capacity buf < count * 5 then some buf
  else
    (List.range count).foldl (fun ob i => ob.bind fun b =>
      afferent_float_buffer_set_vec5_checked b (i * 5) (particle_data.getD (i * 5) 0)
        (particle_data.getD (i * 5 + 1) 0) rot halfSize alpha) (some buf)

/-- Bounds-checked replay of the fused sprite loop body (the particle-array
stores are within Lean list semantics already; the FloatBuffer stores are
checked). -/
def spriteBodyChecked (dt halfSize w h : ℚ) (st : List ℚ × AfferentFloatBuffer)
    (i : ℕ) : Option (List ℚ × AfferentFloatBuffer) :=
  let base := i * 5
  let q := bounceStep dt halfSize w h (st.1.getD base 0) (st.1.getD (base + 1) 0)
    (st.1.getD (base + 2) 0) (st.1.getD (base + 3) 0)
  let p2 := st.1.set base q.1 |>.set (base + 1) q.2.1
    |>.set (base + 2) q.2.2.1 |>.set (base + 3) q.2.2.2
  (afferent_float_buffer_set_checked st.2 base q.1).bind fun b1 =>
  (afferent_float_buffer_set_checked b1 (base + 1) q.2.1).bind fun b2 =>
  (afferent_float_buffer_set_checked b2 (base + 2) 0).bind fun b3 =>
  (afferent_float_buffer_set_checked b3 (base + 3) halfSize).bind fun b4 =>
  (afferent_float_buffer_set_checked b4 (base + 4) 1).map fun b5 => (p2, b5)

/-- Bounds-checked replay of the fused sprite update. -/
def update_bouncing_and_write_sprites_checked
    (particle_data : List ℚ) (count : ℕ) (dt halfSize screenWidth screenHeight : ℚ)
    (sprite_buffer : AfferentFloatBuffer) : Option (List ℚ × AfferentFloatBuffer) :=
  if count = 0 then some (particle_data, sprite_buffer)
  else if particle_data.length < count * 5 then some (particle_data, sprite_buffer)
  else if afferent_float_buffer_capacity sprite_buffer < count * 5 then
    some (particle_data, sprite_buffer)
  else
    (List.range count).foldl (fun ost i => ost.bind fun st =>
      spriteBodyChecked dt halfSize screenWidth screenHeight st i)
      (some (particle_data, sprite_buffer))

/-- Bounds-checked replay of the fused circle loop body. -/
def circleBodyChecked (dt radius w h : ℚ) (st : List ℚ × AfferentFloatBuffer)
    (i : ℕ) : Option (List ℚ × AfferentFloatBuffer) :=
  let base := i * 5
  let q := bounceStep dt radius w h (st.1.getD base 0) (st.1.getD (base + 1) 0)
    (st.1.getD (base + 2) 0) (st.1.getD (base + 3) 0)
  let hue := st.1.getD (base + 4) 0
  let p2 := st.1.set base q.1 |>.set (base + 1) q.2.1
    |>.set (base + 2) q.2.2.1 |>.set (base + 3) q.2.2.2
  (afferent_float_buffer_set_checked st.2 (i * 4) q.1).bind fun b1 =>
  (afferent_float_buffer_set_checked b1 (i * 4 + 1) q.2.1).bind fun b2 =>
  (afferent_float_buffer_set_checked b2 (i * 4 + 2) hue).bind fun b3 =>
  (afferent_float_buffer_set_checked b3 (i * 4 + 3) radius).map fun b4 => (p2, b4)

/-- Bounds-checked replay of the fused circle update. -/
def update_bouncing_and_write_circles_checked
    (particle_data : List ℚ) (count : ℕ) (dt radius screenWidth screenHeight : ℚ)
    (circle_buffer : AfferentFloatBuffer) : Option (List ℚ × AfferentFloatBuffer) :=
  if count = 0 then some (particle_data, circle_buffer)
  else if particle_data.length < count * 5 then some (particle_data, circle_buffer)
  else if afferent_float_buffer_capacity circle_buffer < count * 4 then
    some (particle_data, circle_buffer)
  else
    (List.range count).foldl (fun ost i => ost.bind fun st =>
      circleBodyChecked dt radius screenWidth screenHeight st i)
      (some (particle_data, circle_buffer))

/-! ### Concrete test fixtures used in witnesses -/

/-- A 2 by 3 bitmap with its metrics, as a rasterization result. -/
def testBitmapA : GlyphBitmap :=
  ⟨2, 3, 10, 1, 3, fun _ _ => 7⟩

/-- A small test font with an empty glyph cache and an 8 by 8 atlas whose
oracle rasterizes only codepoint 65. -/
def testFontEmpty : AfferentFont :=
  { size := 12, ascender := 10, descender := -2, line_height := 14,
    glyphs := List.replicate 256 GlyphInfo.zero,
    atlas_data := List.replicate 64 0,
    atlas_width := 8, atlas_height := 8,
    atlas_cursor_x := 1, atlas_cursor_y := 1, atlas_row_height := 0,
    rasterize := fun c => if c = 65 then some testBitmapA else none }

/-- `testFontEmpty` after caching codepoint 65. -/
def testFontCachedA : AfferentFont :=
  (cache_glyph testFontEmpty 65).2

/-- The glyph entry that caching codepoint 65 into `testFontEmpty` stores. -/
def testGlyphA : GlyphInfo :=
  { codepoint := 65, advance_x := 10, bearing_x := 1, bearing_y := 3,
    width := 2, height := 3, atlas_x := 1, atlas_y := 1, valid := true }

/-- `testFontEmpty` with the atlas write cursor past the bottom row:
the atlas vertical space is exhausted. -/
def testFontFull : AfferentFont :=
  { testFontEmpty with atlas_cursor_y := 9 }

/-- Concrete scenario buffer: capacity 40 (8 instances of 5 floats), with
the 8 sprite records written via batched 5-float writes; record `j` holds
the values `5j, 5j+1, 5j+2, 5j+3, 5j+4`. -/
def spriteScenarioBuffer : AfferentFloatBuffer :=
  afferent_float_buffer_set_vec5
    (afferent_float_buffer_set_vec5
      (afferent_float_buffer_set_vec5
        (afferent_float_buffer_set_vec5
          (afferent_float_buffer_set_vec5
            (afferent_float_buffer_set_vec5
              (afferent_float_buffer_set_vec5
                (afferent_float_buffer_set_vec5
                  (afferent_float_buffer_create 40) 0 0 1 2 3 4)
                5 5 6 7 8 9)
              10 10 11 12 13 14)
            15 15 16 17 18 19)
          20 20 21 22 23 24)
        25 25 26 27 28 29)
      30 30 31 32 33 34)
    35 35 36 37 38 39


/-! ### Helper lemmas about list stores and loads -/

theorem getD_set_self {α : Type} (d : α) :
    ∀ (l : List α) (i : ℕ) (v : α), i < l.length → (l.set i v).getD i d = v
  | a :: t, 0, v, _ => rfl
  | a :: t, i + 1, v, h => getD_set_self d t i v (Nat.lt_of_succ_lt_succ h)
  | [], i, v, h => absurd h (by simp)

theorem getD_set_ne {α : Type} (d : α) :
    ∀ (l : List α) (i j : ℕ) (v : α), i ≠ j → (l.set i v).getD j d = l.getD j d
  | [], _, _, _, _ => rfl
  | _ :: _, 0, 0, _, h => absurd rfl h
  | _ :: _, 0, _ + 1, _, _ => rfl
  | _ :: _, _ + 1, 0, _, _ => rfl
  | _ :: t, i + 1, j + 1, v, h =>
      getD_set_ne d t i j v (fun e => h (by rw [e]))

theorem atlas_wrap_y_le (font : AfferentFont) (bw : ℕ) :
    font.atlas_cursor_y ≤ (atlas_wrap font bw).2.1 := by
  unfold atlas_wrap
  split
  · show font.atlas_cursor_y ≤ font.atlas_cursor_y + font.atlas_row_height + 1
    omega
  · exact Nat.le_refl _



/-! ### Claim C1 -/

/-- Claim C1: for every capacity and every index `i < capacity`,
`FloatBuffer.create capacity` followed by `set i v` then `get i`
returns exactly the value `v` that was written. -/
theorem float_buffer_roundtrip (capacity i : ℕ) (v : ℚ) (h : i < capacity) :
    afferent_float_buffer_get
      (afferent_float_buffer_set (afferent_float_buffer_create capacity) i v) i = v := by
  unfold afferent_float_buffer_get afferent_float_buffer_set afferent_float_buffer_create
  exact getD_set_self 0 _ i v (by simpa using h)

theorem float_buffer_roundtrip_witness :
    1 < 3 ∧
    afferent_float_buffer_get
      (afferent_float_buffer_set (afferent_float_buffer_create 3) 1 5) 1 = 5 :=
  ⟨by decide, float_buffer_roundtrip 3 1 5 (by decide)⟩

/-! ### Claim C5 -/

/-- Claim C5: every instanced draw call (rects, triangles, circles) invoked
with `instance_count = 0` or with an instance-data array shorter than
`8 * instance_count` floats returns success, signals no error, and issues
no draw command (silent no-op). -/
theorem draw_instanced_silent_noop (instance_data : List ℚ) (instance_count : ℕ)
    (h : instance_count = 0 ∨ instance_data.length < instance_count * 8) :
    lean_afferent_renderer_draw_instanced_rects instance_data instance_count
      = (.ok (), none) ∧
    lean_afferent_renderer_draw_instanced_triangles instance_data instance_count
      = (.ok (), none) ∧
    lean_afferent_renderer_draw_instanced_circles instance_data instance_count
      = (.ok (), none) := by
  have h2 : instance_data.length < instance_count * 8 ∨ instance_count = 0 := h.symm
  refine ⟨?_, ?_, ?_⟩ <;>
    simp only [lean_afferent_renderer_draw_instanced_rects,
      lean_afferent_renderer_draw_instanced_triangles,
      lean_afferent_renderer_draw_instanced_circles, if_pos h2]

theorem draw_instanced_silent_noop_witness :
    ((0 : ℕ) = 0 ∨ ([(1 : ℚ), 2, 3]).length < 0 * 8) ∧
    lean_afferent_renderer_draw_instanced_rects [(1 : ℚ), 2, 3] 0
      = (.ok (), none) :=
  ⟨Or.inl rfl, (draw_instanced_silent_noop [(1 : ℚ), 2, 3] 0 (Or.inl rfl)).1⟩

/-! ### Claim C6 -/

/-- Claim C6: creating a vertex buffer or an index buffer from a 0-length
array returns an explicit creation error and creates no buffer, so a
`draw_triangles` issued with a 0-length vertex array is rejected at buffer
creation rather than proceeding. -/
theorem buffer_create_empty_error :
    lean_afferent_buffer_create_vertex [] = .error ("Empty vertex array") ∧
    lean_afferent_buffer_create_index [] = .error ("Empty index array") :=
  ⟨rfl, rfl⟩

/-! ### Claim C7 -/

/-- Claim C7: the batched writes `set_vec8` and `set_vec5` leave the buffer
in exactly the state produced by the corresponding individual `set` calls
at consecutive indices; and writing 8 sprite records via batched 5-float
writes into a capacity-40 buffer reads back via `data()` as the written
values in order. -/
theorem set_vec_batch_equals_individual_sets :
    (∀ (buf : AfferentFloatBuffer) (index : ℕ) (v0 v1 v2 v3 v4 v5 v6 v7 : ℚ),
      index + 8 ≤ afferent_float_buffer_capacity buf →
      afferent_float_buffer_set_vec8 buf index v0 v1 v2 v3 v4 v5 v6 v7 =
        afferent_float_buffer_set
          (afferent_float_buffer_set
            (afferent_float_buffer_set
              (afferent_float_buffer_set
                (afferent_float_buffer_set
                  (afferent_float_buffer_set
                    (afferent_float_buffer_set
                      (afferent_float_buffer_set buf index v0)
                      (index + 1) v1)
                    (index + 2) v2)
                  (index + 3) v3)
                (index + 4) v4)
              (index + 5) v5)
            (index + 6) v6)
          (index + 7) v7) ∧
    (∀ (buf : AfferentFloatBuffer) (index : ℕ) (v0 v1 v2 v3 v4 : ℚ),
      index + 5 ≤ afferent_float_buffer_capacity buf →
      afferent_float_buffer_set_vec5 buf index v0 v1 v2 v3 v4 =
        afferent_float_buffer_set
          (afferent_float_buffer_set
            (afferent_float_buffer_set
              (afferent_float_buffer_set
                (afferent_float_buffer_set buf index v0)
                (index + 1) v1)
              (index + 2) v2)
            (index + 3) v3)
          (index + 4) v4) ∧
    afferent_float_buffer_data spriteScenarioBuffer =
      [0, 1, 2, 3, 4, 5, 6, 7, 8, 9, 10, 11, 12, 13, 14, 15, 16, 17, 18, 19,
       20, 21, 22, 23, 24, 25, 26, 27, 28, 29, 30, 31, 32, 33, 34, 35, 36, 37,
       38, 39] :=
  ⟨fun _ _ _ _ _ _ _ _ _ _ _ => rfl, fun _ _ _ _ _ _ _ _ => rfl, by decide⟩

theorem set_vec_batch_equals_individual_sets_witness :
    (0 : ℕ) + 5 ≤ afferent_float_buffer_capacity (afferent_float_buffer_create 5) ∧
    afferent_float_buffer_set_vec5 (afferent_float_buffer_create 5) 0 1 2 3 4 5 =
      afferent_float_buffer_set
        (afferent_float_buffer_set
          (afferent_float_buffer_set
            (afferent_float_buffer_set
              (afferent_float_buffer_set (afferent_float_buffer_create 5) 0 1)
              1 2)
            2 3)
          3 4)
        4 5 :=
  ⟨by decide,
   (set_vec_batch_equals_individual_sets.2.1 (afferent_float_buffer_create 5)
     0 1 2 3 4 5 (by decide))⟩

/-! ### Claim C3 -/

/-- Claim C3: once the vertical space of the atlas is exhausted, a
`cache_glyph` call for a new (not yet cached) codepoint returns no glyph,
leaves every cached glyph entry (validity, metrics, atlas coordinates) and
every atlas pixel unchanged, and leaves the atlas exhausted — so all
further calls for new codepoints keep failing. -/
theorem atlas_full_cache_glyph_fails (font : AfferentFont) (cp : ℕ)
    (hfull : atlas_full font)
    (hnew : (font.glyphs.getD cp GlyphInfo.zero).valid = false) :
    (cache_glyph font cp).1 = none ∧
    (cache_glyph font cp).2.glyphs = font.glyphs ∧
    (cache_glyph font cp).2.atlas_data = font.atlas_data ∧
    atlas_full (cache_glyph font cp).2 := by
  by_cases hcp : MAX_GLYPHS ≤ cp
  · simp only [cache_glyph, if_pos hcp]
    exact ⟨by trivial, by trivial, by trivial, hfull⟩
  · simp only [cache_glyph, if_neg hcp, hnew, Bool.false_eq_true, if_false]
    cases hr : font.rasterize cp with
    | none => exact ⟨by trivial, by trivial, by trivial, hfull⟩
    | some bm =>
      have hy := atlas_wrap_y_le font bm.width
      have hfull2 : font.atlas_height < (atlas_wrap font bm.width).2.1 + bm.rows + 1 := by
        unfold atlas_full at hfull
        omega
      simp only [if_pos hfull2]
      refine ⟨by trivial, by trivial, by trivial, ?_⟩
      unfold atlas_full at hfull ⊢
      simp only
      omega

theorem atlas_full_cache_glyph_fails_witness :
    atlas_full testFontFull ∧
    (testFontFull.glyphs.getD 65 GlyphInfo.zero).valid = false ∧
    (cache_glyph testFontFull 65).1 = none :=
  ⟨by unfold atlas_full; decide, by decide,
   (atlas_full_cache_glyph_fails testFontFull 65 (by unfold atlas_full; decide)
     (by decide)).1⟩

/-! ### Claim C4 -/

/-- A successful `cache_glyph` leaves (or finds) the returned entry stored
and valid at its codepoint. -/
theorem cache_glyph_some_state (font : AfferentFont) (cp : ℕ) (g : GlyphInfo)
    (f1 : AfferentFont) (hwf : font.glyphs.length = MAX_GLYPHS)
    (h : cache_glyph font cp = (some g, f1)) :
    cp < MAX_GLYPHS ∧ f1.glyphs.getD cp GlyphInfo.zero = g ∧ g.valid = true := by
  by_cases hcp : MAX_GLYPHS ≤ cp
  · simp only [cache_glyph, if_pos hcp] at h
    simp at h
  · by_cases hv : (font.glyphs.getD cp GlyphInfo.zero).valid = true
    · simp only [cache_glyph, if_neg hcp, if_pos hv] at h
      rw [Prod.mk.injEq] at h
      obtain ⟨h1, h2⟩ := h
      have h3 := Option.some.inj h1
      exact ⟨Nat.lt_of_not_le hcp, by rw [← h2]; exact h3, by rw [← h3]; exact hv⟩
    · simp only [cache_glyph, if_neg hcp, if_neg hv] at h
      cases hr : font.rasterize cp with
      | none =>
        simp only [hr] at h
        simp at h
      | some bm =>
        by_cases hfull :
            font.atlas_height < (atlas_wrap font bm.width).2.1 + bm.rows + 1
        · simp only [hr, if_pos hfull] at h
          simp at h
        · simp only [hr, if_neg hfull] at h
          rw [Prod.mk.injEq] at h
          obtain ⟨h1, h2⟩ := h
          have h3 := Option.some.inj h1
          refine ⟨Nat.lt_of_not_le hcp, ?_, ?_⟩
          · rw [← h2, ← h3]
            exact getD_set_self GlyphInfo.zero _ cp _
              (by rw [hwf]; exact Nat.lt_of_not_le hcp)
          · rw [← h3]

/-- Claim C4: caching an already-cached codepoint is idempotent: after a
successful `cache_glyph`, calling it again for the same codepoint returns
the very same glyph entry (identical atlas coordinates) and the very same
font state — no re-rasterization, no atlas write, no cursor movement. -/
theorem cache_glyph_idempotent (font f1 : AfferentFont) (cp : ℕ) (g : GlyphInfo)
    (hwf : font.glyphs.length = MAX_GLYPHS)
    (h : cache_glyph font cp = (some g, f1)) :
    cache_glyph f1 cp = (some g, f1) := by
  obtain ⟨hlt, hg, hvalid⟩ := cache_glyph_some_state font cp g f1 hwf h
  unfold cache_glyph
  rw [if_neg (Nat.not_le.2 hlt), hg, if_pos hvalid]

theorem cache_glyph_idempotent_witness :
    cache_glyph testFontCachedA 65 = (some testGlyphA, testFontCachedA) :=
  cache_glyph_idempotent testFontEmpty testFontCachedA 65 testGlyphA
    (by show (List.replicate 256 GlyphInfo.zero).length = MAX_GLYPHS
        rw [List.length_replicate]
        rfl) (by rfl)

/-! ### Claim C8 -/

/-- A `cache_glyph` call that fails without changing the font makes
`measure_step` a no-op. -/
theorem measure_step_none (st : ℚ × AfferentFont) (c : ℕ)
    (h : cache_glyph st.2 c = (none, st.2)) : measure_step st c = st := by
  unfold measure_step
  rw [h]

/-- Claim C8: for every codepoint at or above the MAX_GLYPHS ceiling,
`cache_glyph` fails non-fatally, creates no cache entry and changes no font
or atlas state (the font is returned untouched), and text measurement
simply skips such a glyph. -/
theorem cache_glyph_unsupported_codepoint (font : AfferentFont) (cp : ℕ)
    (h : MAX_GLYPHS ≤ cp) :
    cache_glyph font cp = (none, font) ∧
    ∀ rest : List ℕ, afferent_text_measure font (cp :: rest) =
      afferent_text_measure font rest := by
  have hc : cache_glyph font cp = (none, font) := by
    unfold cache_glyph
    rw [if_pos h]
  refine ⟨hc, fun rest => ?_⟩
  unfold afferent_text_measure
  simp only [List.foldl_cons]
  rw [measure_step_none ((0 : ℚ), font) cp hc]

theorem cache_glyph_unsupported_codepoint_witness :
    MAX_GLYPHS ≤ 300 ∧ cache_glyph testFontEmpty 300 = (none, testFontEmpty) :=
  ⟨by decide, (cache_glyph_unsupported_codepoint testFontEmpty 300 (by decide)).1⟩

/-! ### Claim C2 -/

/-- Claim C2 (code-bug evidence): `afferent_text_generate_vertices` as
defined in text_render.c takes no transform parameter — in conflict with
its declaration in metal/render.h and with the transform semantics
documented at `afferent_text_render` in afferent.h
(`x' = a*x + c*y + tx`, `y' = b*x + d*y + ty`) — and converts raw glyph
pixel coordinates straight to NDC. At the concrete input below (cached
codepoint 65 of `testFontCachedA` drawn at x = 5, y = 7 on a 100 by 50
screen, so the glyph quad corner sits at pixel (6, 4)) the emitted
top-left vertex position equals the untransformed NDC point, and that
differs from the placement the claim mandates under the transform
`[2, 0, 0, 2, 10, 20]`. -/
theorem text_transform_not_applied :
    ((afferent_text_generate_vertices testFontCachedA [65] 5 7 1 1 1 1 100 50).1.getD 0 0,
     (afferent_text_generate_vertices testFontCachedA [65] 5 7 1 1 1 1 100 50).1.getD 1 0)
      = (spec_ndc_x 100 6, spec_ndc_y 50 4) ∧
    (spec_ndc_x 100 (spec_transform_point ⟨2, 0, 0, 2, 10, 20⟩ 6 4).1,
     spec_ndc_y 50 (spec_transform_point ⟨2, 0, 0, 2, 10, 20⟩ 6 4).2)
      ≠ (spec_ndc_x 100 6, spec_ndc_y 50 4) := by
  have hc : cache_glyph testFontCachedA 65 = (some testGlyphA, testFontCachedA) := rfl
  constructor
  · simp only [afferent_text_generate_vertices, List.foldl_cons, List.foldl_nil,
      generate_step, hc, testGlyphA, spec_ndc_x, spec_ndc_y]
    norm_num [List.getD]
  · simp only [spec_transform_point, spec_ndc_x, spec_ndc_y, Prod.mk.injEq, Ne]
    norm_num

/-! ### Fold infrastructure for the fused loops -/

theorem foldl_range_preserves {σ : Type} (f : σ → ℕ → σ) (P : σ → Prop) :
    ∀ (n : ℕ) (init : σ), (∀ s i, i < n → P s → P (f s i)) → P init →
      P ((List.range n).foldl f init)
  | 0, init, _, hP => by simpa using hP
  | (m + 1), init, hpres, hP => by
      rw [List.range_succ, List.foldl_append]
      simp only [List.foldl_cons, List.foldl_nil]
      exact hpres _ m (Nat.lt_succ_self m)
        (foldl_range_preserves f P m init
          (fun s i hi hs => hpres s i (Nat.lt_succ_of_lt hi) hs) hP)

theorem foldl_range_bind_eq_some {σ : Type} (f : σ → ℕ → σ) (g : σ → ℕ → Option σ)
    (P : σ → Prop) :
    ∀ (n : ℕ) (init : σ), (∀ s i, i < n → P s → P (f s i)) →
      (∀ s i, i < n → P s → g s i = some (f s i)) → P init →
      (List.range n).foldl (fun os i => os.bind fun s => g s i) (some init)
        = some ((List.range n).foldl f init)
  | 0, init, _, _, _ => by simp
  | (m + 1), init, hpres, hg, hP => by
      rw [List.range_succ, List.foldl_append, List.foldl_append]
      rw [foldl_range_bind_eq_some f g P m init
        (fun s i hi hs => hpres s i (Nat.lt_succ_of_lt hi) hs)
        (fun s i hi hs => hg s i (Nat.lt_succ_of_lt hi) hs) hP]
      simp only [List.foldl_cons, List.foldl_nil, Option.some_bind]
      exact hg _ m (Nat.lt_succ_self m)
        (foldl_range_preserves f P m init
          (fun s i hi hs => hpres s i (Nat.lt_succ_of_lt hi) hs) hP)

/-! ### Properties of the bouncing step -/

theorem bounceStep_bounds (dt r w h x y vx vy : ℚ) (hw : 2 * r ≤ w) (hh : 2 * r ≤ h) :
    r ≤ (bounceStep dt r w h x y vx vy).1 ∧
    (bounceStep dt r w h x y vx vy).1 ≤ w - r ∧
    r ≤ (bounceStep dt r w h x y vx vy).2.1 ∧
    (bounceStep dt r w h x y vx vy).2.1 ≤ h - r := by
  unfold bounceStep
  dsimp only
  split_ifs <;> refine ⟨?_, ?_, ?_, ?_⟩ <;> dsimp only <;> linarith

theorem bounceStep_velocity (dt r w h x y vx vy : ℚ) :
    ((bounceStep dt r w h x y vx vy).2.2.1 = vx ∨
     (bounceStep dt r w h x y vx vy).2.2.1 = -vx) ∧
    ((bounceStep dt r w h x y vx vy).2.2.2 = vy ∨
     (bounceStep dt r w h x y vx vy).2.2.2 = -vy) := by
  unfold bounceStep
  dsimp only
  split_ifs <;> simp

/-! ### Loop-body lemmas for the fused sprite update -/

theorem spriteBody_lengths (dt hS w h : ℚ) (st : List ℚ × AfferentFloatBuffer)
    (i : ℕ) :
    (spriteBody dt hS w h st i).1.length = st.1.length ∧
    (spriteBody dt hS w h st i).2.data.length = st.2.data.length := by
  unfold spriteBody afferent_float_buffer_set
  dsimp only
  constructor <;> simp [List.length_set]

theorem spriteBody_fst_getD_untouched (dt hS w h : ℚ)
    (st : List ℚ × AfferentFloatBuffer) (i j : ℕ)
    (hj : j < i * 5 ∨ i * 5 + 4 ≤ j) :
    (spriteBody dt hS w h st i).1.getD j 0 = st.1.getD j 0 := by
  unfold spriteBody
  dsimp only
  rw [getD_set_ne, getD_set_ne, getD_set_ne, getD_set_ne]
  all_goals omega

theorem spriteBody_snd_getD_untouched (dt hS w h : ℚ)
    (st : List ℚ × AfferentFloatBuffer) (i j : ℕ)
    (hj : j < i * 5 ∨ i * 5 + 5 ≤ j) :
    (spriteBody dt hS w h st i).2.data.getD j 0 = st.2.data.getD j 0 := by
  unfold spriteBody afferent_float_buffer_set
  dsimp only
  rw [getD_set_ne, getD_set_ne, getD_set_ne, getD_set_ne, getD_set_ne]
  all_goals omega

theorem spriteBody_fst_writes (dt hS w h : ℚ) (st : List ℚ × AfferentFloatBuffer)
    (i : ℕ) (hp : i * 5 + 3 < st.1.length) :
    (spriteBody dt hS w h st i).1.getD (i * 5) 0 =
      (bounceStep dt hS w h (st.1.getD (i * 5) 0) (st.1.getD (i * 5 + 1) 0)
        (st.1.getD (i * 5 + 2) 0) (st.1.getD (i * 5 + 3) 0)).1 ∧
    (spriteBody dt hS w h st i).1.getD (i * 5 + 1) 0 =
      (bounceStep dt hS w h (st.1.getD (i * 5) 0) (st.1.getD (i * 5 + 1) 0)
        (st.1.getD (i * 5 + 2) 0) (st.1.getD (i * 5 + 3) 0)).2.1 ∧
    (spriteBody dt hS w h st i).1.getD (i * 5 + 2) 0 =
      (bounceStep dt hS w h (st.1.getD (i * 5) 0) (st.1.getD (i * 5 + 1) 0)
        (st.1.getD (i * 5 + 2) 0) (st.1.getD (i * 5 + 3) 0)).2.2.1 ∧
    (spriteBody dt hS w h st i).1.getD (i * 5 + 3) 0 =
      (bounceStep dt hS w h (st.1.getD (i * 5) 0) (st.1.getD (i * 5 + 1) 0)
        (st.1.getD (i * 5 + 2) 0) (st.1.getD (i * 5 + 3) 0)).2.2.2 := by
  unfold spriteBody
  dsimp only
  refine ⟨?_, ?_, ?_, ?_⟩
  · rw [getD_set_ne, getD_set_ne, getD_set_ne, getD_set_self]
    all_goals try simp only [List.length_set]
    all_goals omega
  · rw [getD_set_ne, getD_set_ne, getD_set_self]
    all_goals try simp only [List.length_set]
    all_goals omega
  · rw [getD_set_ne, getD_set_self]
    all_goals try simp only [List.length_set]
    all_goals omega
  · rw [getD_set_self]
    all_goals try simp only [List.length_set]
    all_goals omega

theorem spriteBody_snd_writes (dt hS w h : ℚ) (st : List ℚ × AfferentFloatBuffer)
    (i : ℕ) (hb : i * 5 + 4 < st.2.data.length) :
    (spriteBody dt hS w h st i).2.data.getD (i * 5) 0 =
      (bounceStep dt hS w h (st.1.getD (i * 5) 0) (st.1.getD (i * 5 + 1) 0)
        (st.1.getD (i * 5 + 2) 0) (st.1.getD (i * 5 + 3) 0)).1 ∧
    (spriteBody dt hS w h st i).2.data.getD (i * 5 + 1) 0 =
      (bounceStep dt hS w h (st.1.getD (i * 5) 0) (st.1.getD (i * 5 + 1) 0)
        (st.1.getD (i * 5 + 2) 0) (st.1.getD (i * 5 + 3) 0)).2.1 ∧
    (spriteBody dt hS w h st i).2.data.getD (i * 5 + 2) 0 = 0 ∧
    (spriteBody dt hS w h st i).2.data.getD (i * 5 + 3) 0 = hS ∧
    (spriteBody dt hS w h st i).2.data.getD (i * 5 + 4) 0 = 1 := by
  unfold spriteBody afferent_float_buffer_set
  dsimp only
  refine ⟨?_, ?_, ?_, ?_, ?_⟩
  · rw [getD_set_ne, getD_set_ne, getD_set_ne, getD_set_ne, getD_set_self]
    all_goals try simp only [List.length_set]
    all_goals omega
  · rw [getD_set_ne, getD_set_ne, getD_set_ne, getD_set_self]
    all_goals try simp only [List.length_set]
    all_goals omega
  · rw [getD_set_ne, getD_set_ne, getD_set_self]
    all_goals try simp only [List.length_set]
    all_goals omega
  · rw [getD_set_ne, getD_set_self]
    all_goals try simp only [List.length_set]
    all_goals omega
  · rw [getD_set_self]
    all_goals try simp only [List.length_set]
    all_goals omega

/-! ### Characterization of the fused sprite loop -/

theorem sprite_fold_spec (dt hS w h : ℚ) (p0 : List ℚ) (b0 : AfferentFloatBuffer) :
    ∀ n : ℕ, n * 5 ≤ p0.length → n * 5 ≤ b0.data.length →
      ((List.range n).foldl (spriteBody dt hS w h) (p0, b0)).1.length = p0.length ∧
      ((List.range n).foldl (spriteBody dt hS w h) (p0, b0)).2.data.length
        = b0.data.length ∧
      (∀ j, n * 5 ≤ j →
        ((List.range n).foldl (spriteBody dt hS w h) (p0, b0)).1.getD j 0
          = p0.getD j 0 ∧
        ((List.range n).foldl (spriteBody dt hS w h) (p0, b0)).2.data.getD j 0
          = b0.data.getD j 0) ∧
      (∀ i, i < n →
        ((List.range n).foldl (spriteBody dt hS w h) (p0, b0)).1.getD (i * 5) 0
          = (particleStep p0 i dt hS w h).1 ∧
        ((List.range n).foldl (spriteBody dt hS w h) (p0, b0)).1.getD (i * 5 + 1) 0
          = (particleStep p0 i dt hS w h).2.1 ∧
        ((List.range n).foldl (spriteBody dt hS w h) (p0, b0)).1.getD (i * 5 + 2) 0
          = (particleStep p0 i dt hS w h).2.2.1 ∧
        ((List.range n).foldl (spriteBody dt hS w h) (p0, b0)).1.getD (i * 5 + 3) 0
          = (particleStep p0 i dt hS w h).2.2.2 ∧
        ((List.range n).foldl (spriteBody dt hS w h) (p0, b0)).1.getD (i * 5 + 4) 0
          = p0.getD (i * 5 + 4) 0 ∧
        ((List.range n).foldl (spriteBody dt hS w h) (p0, b0)).2.data.getD (i * 5) 0
          = (particleStep p0 i dt hS w h).1 ∧
        ((List.range n).foldl (spriteBody dt hS w h) (p0, b0)).2.data.getD (i * 5 + 1) 0
          = (particleStep p0 i dt hS w h).2.1 ∧
        ((List.range n).foldl (spriteBody dt hS w h) (p0, b0)).2.data.getD (i * 5 + 2) 0
          = 0 ∧
        ((List.range n).foldl (spriteBody dt hS w h) (p0, b0)).2.data.getD (i * 5 + 3) 0
          = hS ∧
        ((List.range n).foldl (spriteBody dt hS w h) (p0, b0)).2.data.getD (i * 5 + 4) 0
          = 1)
  | 0, _, _ =>
      ⟨rfl, rfl, fun _ _ => ⟨rfl, rfl⟩, fun i hi => absurd hi (Nat.not_lt_zero i)⟩
  | (m + 1), hp, hb => by
      obtain ⟨ihl1, ihl2, ihhi, ihlo⟩ :=
        sprite_fold_spec dt hS w h p0 b0 m (by omega) (by omega)
      rw [List.range_succ, List.foldl_append]
      simp only [List.foldl_cons, List.foldl_nil]
      set Fm := (List.range m).foldl (spriteBody dt hS w h) (p0, b0) with hFm
      have hlen1 := (spriteBody_lengths dt hS w h Fm m).1
      have hlen2 := (spriteBody_lengths dt hS w h Fm m).2
      have hr0 : Fm.1.getD (m * 5) 0 = p0.getD (m * 5) 0 := (ihhi (m * 5) (by omega)).1
      have hr1 : Fm.1.getD (m * 5 + 1) 0 = p0.getD (m * 5 + 1) 0 :=
        (ihhi (m * 5 + 1) (by omega)).1
      have hr2 : Fm.1.getD (m * 5 + 2) 0 = p0.getD (m * 5 + 2) 0 :=
        (ihhi (m * 5 + 2) (by omega)).1
      have hr3 : Fm.1.getD (m * 5 + 3) 0 = p0.getD (m * 5 + 3) 0 :=
        (ihhi (m * 5 + 3) (by omega)).1
      have hq : bounceStep dt hS w h (Fm.1.getD (m * 5) 0) (Fm.1.getD (m * 5 + 1) 0)
          (Fm.1.getD (m * 5 + 2) 0) (Fm.1.getD (m * 5 + 3) 0)
          = particleStep p0 m dt hS w h := by
        rw [hr0, hr1, hr2, hr3]
        rfl
      have hplen : m * 5 + 3 < Fm.1.length := by rw [ihl1]; omega
      have hblen : m * 5 + 4 < Fm.2.data.length := by rw [ihl2]; omega
      have hw1 := spriteBody_fst_writes dt hS w h Fm m hplen
      have hw2 := spriteBody_snd_writes dt hS w h Fm m hblen
      refine ⟨by rw [hlen1, ihl1], by rw [hlen2, ihl2], ?_, ?_⟩
      · intro j hj
        constructor
        · rw [spriteBody_fst_getD_untouched dt hS w h Fm m j (by omega)]
          exact (ihhi j (by omega)).1
        · rw [spriteBody_snd_getD_untouched dt hS w h Fm m j (by omega)]
          exact (ihhi j (by omega)).2
      · intro i hi
        rcases Nat.lt_or_ge i m with him | him
        · obtain ⟨c1, c2, c3, c4, c5, c6, c7, c8, c9, c10⟩ := ihlo i him
          refine ⟨?_, ?_, ?_, ?_, ?_, ?_, ?_, ?_, ?_, ?_⟩
          · rw [spriteBody_fst_getD_untouched dt hS w h Fm m _ (by omega)]; exact c1
          · rw [spriteBody_fst_getD_untouched dt hS w h Fm m _ (by omega)]; exact c2
          · rw [spriteBody_fst_getD_untouched dt hS w h Fm m _ (by omega)]; exact c3
          · rw [spriteBody_fst_getD_untouched dt hS w h Fm m _ (by omega)]; exact c4
          · rw [spriteBody_fst_getD_untouched dt hS w h Fm m _ (by omega)]; exact c5
          · rw [spriteBody_snd_getD_untouched dt hS w h Fm m _ (by omega)]; exact c6
          · rw [spriteBody_snd_getD_untouched dt hS w h Fm m _ (by omega)]; exact c7
          · rw [spriteBody_snd_getD_untouched dt hS w h Fm m _ (by omega)]; exact c8
          · rw [spriteBody_snd_getD_untouched dt hS w h Fm m _ (by omega)]; exact c9
          · rw [spriteBody_snd_getD_untouched dt hS w h Fm m _ (by omega)]; exact c10
        · have him2 : i = m := by omega
          subst him2
          refine ⟨?_, ?_, ?_, ?_, ?_, ?_, ?_, ?_, ?_, ?_⟩
          · rw [hw1.1, hq]
          · rw [hw1.2.1, hq]
          · rw [hw1.2.2.1, hq]
          · rw [hw1.2.2.2, hq]
          · rw [spriteBody_fst_getD_untouched dt hS w h Fm i _ (by omega)]
            exact (ihhi (i * 5 + 4) (by omega)).1
          · rw [hw2.1, hq]
          · rw [hw2.2.1, hq]
          · exact hw2.2.2.1
          · exact hw2.2.2.2.1
          · exact hw2.2.2.2.2

/-! ### Loop-body lemmas for the fused circle update -/

theorem circleBody_lengths (dt rad w h : ℚ) (st : List ℚ × AfferentFloatBuffer)
    (i : ℕ) :
    (circleBody dt rad w h st i).1.length = st.1.length ∧
    (circleBody dt rad w h st i).2.data.length = st.2.data.length := by
  unfold circleBody afferent_float_buffer_set
  dsimp only
  constructor <;> simp [List.length_set]

theorem circleBody_fst_getD_untouched (dt rad w h : ℚ)
    (st : List ℚ × AfferentFloatBuffer) (i j : ℕ)
    (hj : j < i * 5 ∨ i * 5 + 4 ≤ j) :
    (circleBody dt rad w h st i).1.getD j 0 = st.1.getD j 0 := by
  unfold circleBody
  dsimp only
  rw [getD_set_ne, getD_set_ne, getD_set_ne, getD_set_ne]
  all_goals omega

theorem circleBody_snd_getD_untouched (dt rad w h : ℚ)
    (st : List ℚ × AfferentFloatBuffer) (i j : ℕ)
    (hj : j < i * 4 ∨ i * 4 + 4 ≤ j) :
    (circleBody dt rad w h st i).2.data.getD j 0 = st.2.data.getD j 0 := by
  unfold circleBody afferent_float_buffer_set
  dsimp only
  rw [getD_set_ne, getD_set_ne, getD_set_ne, getD_set_ne]
  all_goals omega

theorem circleBody_fst_writes (dt rad w h : ℚ) (st : List ℚ × AfferentFloatBuffer)
    (i : ℕ) (hp : i * 5 + 3 < st.1.length) :
    (circleBody dt rad w h st i).1.getD (i * 5) 0 =
      (bounceStep dt rad w h (st.1.getD (i * 5) 0) (st.1.getD (i * 5 + 1) 0)
        (st.1.getD (i * 5 + 2) 0) (st.1.getD (i * 5 + 3) 0)).1 ∧
    (circleBody dt rad w h st i).1.getD (i * 5 + 1) 0 =
      (bounceStep dt rad w h (st.1.getD (i * 5) 0) (st.1.getD (i * 5 + 1) 0)
        (st.1.getD (i * 5 + 2) 0) (st.1.getD (i * 5 + 3) 0)).2.1 ∧
    (circleBody dt rad w h st i).1.getD (i * 5 + 2) 0 =
      (bounceStep dt rad w h (st.1.getD (i * 5) 0) (st.1.getD (i * 5 + 1) 0)
        (st.1.getD (i * 5 + 2) 0) (st.1.getD (i * 5 + 3) 0)).2.2.1 ∧
    (circleBody dt rad w h st i).1.getD (i * 5 + 3) 0 =
      (bounceStep dt rad w h (st.1.getD (i * 5) 0) (st.1.getD (i * 5 + 1) 0)
        (st.1.getD (i * 5 + 2) 0) (st.1.getD (i * 5 + 3) 0)).2.2.2 := by
  unfold circleBody
  dsimp only
  refine ⟨?_, ?_, ?_, ?_⟩
  · rw [getD_set_ne, getD_set_ne, getD_set_ne, getD_set_self]
    all_goals try simp only [List.length_set]
    all_goals omega
  · rw [getD_set_ne, getD_set_ne, getD_set_self]
    all_goals try simp only [List.length_set]
    all_goals omega
  · rw [getD_set_ne, getD_set_self]
    all_goals try simp only [List.length_set]
    all_goals omega
  · rw [getD_set_self]
    all_goals try simp only [List.length_set]
    all_goals omega

theorem circleBody_snd_writes (dt rad w h : ℚ) (st : List ℚ × AfferentFloatBuffer)
    (i : ℕ) (hb : i * 4 + 3 < st.2.data.length) :
    (circleBody dt rad w h st i).2.data.getD (i * 4) 0 =
      (bounceStep dt rad w h (st.1.getD (i * 5) 0) (st.1.getD (i * 5 + 1) 0)
        (st.1.getD (i * 5 + 2) 0) (st.1.getD (i * 5 + 3) 0)).1 ∧
    (circleBody dt rad w h st i).2.data.getD (i * 4 + 1) 0 =
      (bounceStep dt rad w h (st.1.getD (i * 5) 0) (st.1.getD (i * 5 + 1) 0)
        (st.1.getD (i * 5 + 2) 0) (st.1.getD (i * 5 + 3) 0)).2.1 ∧
    (circleBody dt rad w h st i).2.data.getD (i * 4 + 2) 0 = st.1.getD (i * 5 + 4) 0 ∧
    (circleBody dt rad w h st i).2.data.getD (i * 4 + 3) 0 = rad := by
  unfold circleBody afferent_float_buffer_set
  dsimp only
  refine ⟨?_, ?_, ?_, ?_⟩
  · rw [getD_set_ne, getD_set_ne, getD_set_ne, getD_set_self]
    all_goals try simp only [List.length_set]
    all_goals omega
  · rw [getD_set_ne, getD_set_ne, getD_set_self]
    all_goals try simp only [List.length_set]
    all_goals omega
  · rw [getD_set_ne, getD_set_self]
    all_goals try simp only [List.length_set]
    all_goals omega
  · rw [getD_set_self]
    all_goals try simp only [List.length_set]
    all_goals omega

/-! ### Characterization of the fused circle loop -/

theorem circle_fold_spec (dt rad w h : ℚ) (p0 : List ℚ) (b0 : AfferentFloatBuffer) :
    ∀ n : ℕ, n * 5 ≤ p0.length → n * 4 ≤ b0.data.length →
      ((List.range n).foldl (circleBody dt rad w h) (p0, b0)).1.length = p0.length ∧
      ((List.range n).foldl (circleBody dt rad w h) (p0, b0)).2.data.length
        = b0.data.length ∧
      (∀ j, n * 5 ≤ j →
        ((List.range n).foldl (circleBody dt rad w h) (p0, b0)).1.getD j 0
          = p0.getD j 0) ∧
      (∀ j, n * 4 ≤ j →
        ((List.range n).foldl (circleBody dt rad w h) (p0, b0)).2.data.getD j 0
          = b0.data.getD j 0) ∧
      (∀ i, i < n →
        ((List.range n).foldl (circleBody dt rad w h) (p0, b0)).1.getD (i * 5) 0
          = (particleStep p0 i dt rad w h).1 ∧
        ((List.range n).foldl (circleBody dt rad w h) (p0, b0)).1.getD (i * 5 + 1) 0
          = (particleStep p0 i dt rad w h).2.1 ∧
        ((List.range n).foldl (circleBody dt rad w h) (p0, b0)).1.getD (i * 5 + 2) 0
          = (particleStep p0 i dt rad w h).2.2.1 ∧
        ((List.range n).foldl (circleBody dt rad w h) (p0, b0)).1.getD (i * 5 + 3) 0
          = (particleStep p0 i dt rad w h).2.2.2 ∧
        ((List.range n).foldl (circleBody dt rad w h) (p0, b0)).1.getD (i * 5 + 4) 0
          = p0.getD (i * 5 + 4) 0 ∧
        ((List.range n).foldl (circleBody dt rad w h) (p0, b0)).2.data.getD (i * 4) 0
          = (particleStep p0 i dt rad w h).1 ∧
        ((List.range n).foldl (circleBody dt rad w h) (p0, b0)).2.data.getD (i * 4 + 1) 0
          = (particleStep p0 i dt rad w h).2.1 ∧
        ((List.range n).foldl (circleBody dt rad w h) (p0, b0)).2.data.getD (i * 4 + 2) 0
          = p0.getD (i * 5 + 4) 0 ∧
        ((List.range n).foldl (circleBody dt rad w h) (p0, b0)).2.data.getD (i * 4 + 3) 0
          = rad)
  | 0, _, _ =>
      ⟨rfl, rfl, fun _ _ => rfl, fun _ _ => rfl,
       fun i hi => absurd hi (Nat.not_lt_zero i)⟩
  | (m + 1), hp, hb => by
      obtain ⟨ihl1, ihl2, ihp, ihb2, ihlo⟩ :=
        circle_fold_spec dt rad w h p0 b0 m (by omega) (by omega)
      rw [List.range_succ, List.foldl_append]
      simp only [List.foldl_cons, List.foldl_nil]
      set Fm := (List.range m).foldl (circleBody dt rad w h) (p0, b0) with hFm
      have hlen1 := (circleBody_lengths dt rad w h Fm m).1
      have hlen2 := (circleBody_lengths dt rad w h Fm m).2
      have hr0 : Fm.1.getD (m * 5) 0 = p0.getD (m * 5) 0 := ihp (m * 5) (by omega)
      have hr1 : Fm.1.getD (m * 5 + 1) 0 = p0.getD (m * 5 + 1) 0 :=
        ihp (m * 5 + 1) (by omega)
      have hr2 : Fm.1.getD (m * 5 + 2) 0 = p0.getD (m * 5 + 2) 0 :=
        ihp (m * 5 + 2) (by omega)
      have hr3 : Fm.1.getD (m * 5 + 3) 0 = p0.getD (m * 5 + 3) 0 :=
        ihp (m * 5 + 3) (by omega)
      have hr4 : Fm.1.getD (m * 5 + 4) 0 = p0.getD (m * 5 + 4) 0 :=
        ihp (m * 5 + 4) (by omega)
      have hq : bounceStep dt rad w h (Fm.1.getD (m * 5) 0) (Fm.1.getD (m * 5 + 1) 0)
          (Fm.1.getD (m * 5 + 2) 0) (Fm.1.getD (m * 5 + 3) 0)
          = particleStep p0 m dt rad w h := by
        rw [hr0, hr1, hr2, hr3]
        rfl
      have hplen : m * 5 + 3 < Fm.1.length := by rw [ihl1]; omega
      have hblen : m * 4 + 3 < Fm.2.data.length := by rw [ihl2]; omega
      have hw1 := circleBody_fst_writes dt rad w h Fm m hplen
      have hw2 := circleBody_snd_writes dt rad w h Fm m hblen
      refine ⟨by rw [hlen1, ihl1], by rw [hlen2, ihl2], ?_, ?_, ?_⟩
      · intro j hj
        rw [circleBody_fst_getD_untouched dt rad w h Fm m j (by omega)]
        exact ihp j (by omega)
      · intro j hj
        rw [circleBody_snd_getD_untouched dt rad w h Fm m j (by omega)]
        exact ihb2 j (by omega)
      · intro i hi
        rcases Nat.lt_or_ge i m with him | him
        · obtain ⟨c1, c2, c3, c4, c5, c6, c7, c8, c9⟩ := ihlo i him
          refine ⟨?_, ?_, ?_, ?_, ?_, ?_, ?_, ?_, ?_⟩
          · rw [circleBody_fst_getD_untouched dt rad w h Fm m _ (by omega)]; exact c1
          · rw [circleBody_fst_getD_untouched dt rad w h Fm m _ (by omega)]; exact c2
          · rw [circleBody_fst_getD_untouched dt rad w h Fm m _ (by omega)]; exact c3
          · rw [circleBody_fst_getD_untouched dt rad w h Fm m _ (by omega)]; exact c4
          · rw [circleBody_fst_getD_untouched dt rad w h Fm m _ (by omega)]; exact c5
          · rw [circleBody_snd_getD_untouched dt rad w h Fm m _ (by omega)]; exact c6
          · rw [circleBody_snd_getD_untouched dt rad w h Fm m _ (by omega)]; exact c7
          · rw [circleBody_snd_getD_untouched dt rad w h Fm m _ (by omega)]; exact c8
          · rw [circleBody_snd_getD_untouched dt rad w h Fm m _ (by omega)]; exact c9
        · have him2 : i = m := by omega
          subst him2
          refine ⟨?_, ?_, ?_, ?_, ?_, ?_, ?_, ?_, ?_⟩
          · rw [hw1.1, hq]
          · rw [hw1.2.1, hq]
          · rw [hw1.2.2.1, hq]
          · rw [hw1.2.2.2, hq]
          · rw [circleBody_fst_getD_untouched dt rad w h Fm i _ (by omega)]
            exact ihp (i * 5 + 4) (by omega)
          · rw [hw2.1, hq]
          · rw [hw2.2.1, hq]
          · rw [hw2.2.2.1]
            exact hr4
          · exact hw2.2.2.2

/-! ### Claim C9 -/

/-- Claim C9: for every fused bouncing-physics call (sprite and circle
variants) with positive count, a particle array of at least `5 * count`
floats, an output FloatBuffer of sufficient capacity, and `2 * halfSize`
(resp. `2 * radius`) at most the screen width and height: after the call,
every updated particle position lies within
`[halfSize, screenWidth - halfSize] × [halfSize, screenHeight - halfSize]`,
each velocity component is either kept or negated (negated exactly on a
clamped axis, per `bounceStep`), the four particle state floats are updated
to `particleStep` and the hue float is untouched, and the i-th output record
equals `[x, y, 0, halfSize, 1]` for sprites (resp. `[x, y, hue, radius]` for
circles). -/
theorem particles_update_bouncing_correct :
    (∀ (p : List ℚ) (count : ℕ) (dt hS w h : ℚ) (out : AfferentFloatBuffer),
      0 < count → count * 5 ≤ p.length →
      count * 5 ≤ afferent_float_buffer_capacity out →
      2 * hS ≤ w → 2 * hS ≤ h →
      ∀ i, i < count →
        hS ≤ (particleStep p i dt hS w h).1 ∧
        (particleStep p i dt hS w h).1 ≤ w - hS ∧
        hS ≤ (particleStep p i dt hS w h).2.1 ∧
        (particleStep p i dt hS w h).2.1 ≤ h - hS ∧
        ((particleStep p i dt hS w h).2.2.1 = p.getD (i * 5 + 2) 0 ∨
         (particleStep p i dt hS w h).2.2.1 = -(p.getD (i * 5 + 2) 0)) ∧
        ((particleStep p i dt hS w h).2.2.2 = p.getD (i * 5 + 3) 0 ∨
         (particleStep p i dt hS w h).2.2.2 = -(p.getD (i * 5 + 3) 0)) ∧
        (lean_afferent_particles_update_bouncing_and_write_sprites p count dt hS w h out).1.getD (i * 5) 0
          = (particleStep p i dt hS w h).1 ∧
        (lean_afferent_particles_update_bouncing_and_write_sprites p count dt hS w h out).1.getD (i * 5 + 1) 0
          = (particleStep p i dt hS w h).2.1 ∧
        (lean_afferent_particles_update_bouncing_and_write_sprites p count dt hS w h out).1.getD (i * 5 + 2) 0
          = (particleStep p i dt hS w h).2.2.1 ∧
        (lean_afferent_particles_update_bouncing_and_write_sprites p count dt hS w h out).1.getD (i * 5 + 3) 0
          = (particleStep p i dt hS w h).2.2.2 ∧
        (lean_afferent_particles_update_bouncing_and_write_sprites p count dt hS w h out).1.getD (i * 5 + 4) 0
          = p.getD (i * 5 + 4) 0 ∧
        (lean_afferent_particles_update_bouncing_and_write_sprites p count dt hS w h out).2.data.getD (i * 5) 0
          = (particleStep p i dt hS w h).1 ∧
        (lean_afferent_particles_update_bouncing_and_write_sprites p count dt hS w h out).2.data.getD (i * 5 + 1) 0
          = (particleStep p i dt hS w h).2.1 ∧
        (lean_afferent_particles_update_bouncing_and_write_sprites p count dt hS w h out).2.data.getD (i * 5 + 2) 0
          = 0 ∧
        (lean_afferent_particles_update_bouncing_and_write_sprites p count dt hS w h out).2.data.getD (i * 5 + 3) 0
          = hS ∧
        (lean_afferent_particles_update_bouncing_and_write_sprites p count dt hS w h out).2.data.getD (i * 5 + 4) 0
          = 1) ∧
    (∀ (p : List ℚ) (count : ℕ) (dt rad w h : ℚ) (out : AfferentFloatBuffer),
      0 < count → count * 5 ≤ p.length →
      count * 4 ≤ afferent_float_buffer_capacity out →
      2 * rad ≤ w → 2 * rad ≤ h →
      ∀ i, i < count →
        rad ≤ (particleStep p i dt rad w h).1 ∧
        (particleStep p i dt rad w h).1 ≤ w - rad ∧
        rad ≤ (particleStep p i dt rad w h).2.1 ∧
        (particleStep p i dt rad w h).2.1 ≤ h - rad ∧
        ((particleStep p i dt rad w h).2.2.1 = p.getD (i * 5 + 2) 0 ∨
         (particleStep p i dt rad w h).2.2.1 = -(p.getD (i * 5 + 2) 0)) ∧
        ((particleStep p i dt rad w h).2.2.2 = p.getD (i * 5 + 3) 0 ∨
         (particleStep p i dt rad w h).2.2.2 = -(p.getD (i * 5 + 3) 0)) ∧
        (lean_afferent_particles_update_bouncing_and_write_circles p count dt rad w h out).1.getD (i * 5) 0
          = (particleStep p i dt rad w h).1 ∧
        (lean_afferent_particles_update_bouncing_and_write_circles p count dt rad w h out).1.getD (i * 5 + 1) 0
          = (particleStep p i dt rad w h).2.1 ∧
        (lean_afferent_particles_update_bouncing_and_write_circles p count dt rad w h out).1.getD (i * 5 + 2) 0
          = (particleStep p i dt rad w h).2.2.1 ∧
        (lean_afferent_particles_update_bouncing_and_write_circles p count dt rad w h out).1.getD (i * 5 + 3) 0
          = (particleStep p i dt rad w h).2.2.2 ∧
        (lean_afferent_particles_update_bouncing_and_write_circles p count dt rad w h out).1.getD (i * 5 + 4) 0
          = p.getD (i * 5 + 4) 0 ∧
        (lean_afferent_particles_update_bouncing_and_write_circles p count dt rad w h out).2.data.getD (i * 4) 0
          = (particleStep p i dt rad w h).1 ∧
        (lean_afferent_particles_update_bouncing_and_write_circles p count dt rad w h out).2.data.getD (i * 4 + 1) 0
          = (particleStep p i dt rad w h).2.1 ∧
        (lean_afferent_particles_update_bouncing_and_write_circles p count dt rad w h out).2.data.getD (i * 4 + 2) 0
          = p.getD (i * 5 + 4) 0 ∧
        (lean_afferent_particles_update_bouncing_and_write_circles p count dt rad w h out).2.data.getD (i * 4 + 3) 0
          = rad) := by
  constructor
  · intro p count dt hS w h out hcount hlen hcap hw hh i hi
    have hfun : lean_afferent_particles_update_bouncing_and_write_sprites p count dt hS w h out
        = (List.range count).foldl (spriteBody dt hS w h) (p, out) := by
      unfold lean_afferent_particles_update_bouncing_and_write_sprites
      rw [if_neg (by omega), if_neg (by omega), if_neg (Nat.not_lt.2 hcap)]
    obtain ⟨_, _, _, hlo⟩ := sprite_fold_spec dt hS w h p out count hlen hcap
    obtain ⟨c1, c2, c3, c4, c5, c6, c7, c8, c9, c10⟩ := hlo i hi
    obtain ⟨b1, b2, b3, b4⟩ := bounceStep_bounds dt hS w h (p.getD (i * 5) 0)
      (p.getD (i * 5 + 1) 0) (p.getD (i * 5 + 2) 0) (p.getD (i * 5 + 3) 0) hw hh
    obtain ⟨v1, v2⟩ := bounceStep_velocity dt hS w h (p.getD (i * 5) 0)
      (p.getD (i * 5 + 1) 0) (p.getD (i * 5 + 2) 0) (p.getD (i * 5 + 3) 0)
    rw [hfun]
    exact ⟨b1, b2, b3, b4, v1, v2, c1, c2, c3, c4, c5, c6, c7, c8, c9, c10⟩
  · intro p count dt rad w h out hcount hlen hcap hw hh i hi
    have hfun : lean_afferent_particles_update_bouncing_and_write_circles p count dt rad w h out
        = (List.range count).foldl (circleBody dt rad w h) (p, out) := by
      unfold lean_afferent_particles_update_bouncing_and_write_circles
      rw [if_neg (by omega), if_neg (by omega), if_neg (Nat.not_lt.2 hcap)]
    obtain ⟨_, _, _, _, hlo⟩ := circle_fold_spec dt rad w h p out count hlen hcap
    obtain ⟨c1, c2, c3, c4, c5, c6, c7, c8, c9⟩ := hlo i hi
    obtain ⟨b1, b2, b3, b4⟩ := bounceStep_bounds dt rad w h (p.getD (i * 5) 0)
      (p.getD (i * 5 + 1) 0) (p.getD (i * 5 + 2) 0) (p.getD (i * 5 + 3) 0) hw hh
    obtain ⟨v1, v2⟩ := bounceStep_velocity dt rad w h (p.getD (i * 5) 0)
      (p.getD (i * 5 + 1) 0) (p.getD (i * 5 + 2) 0) (p.getD (i * 5 + 3) 0)
    rw [hfun]
    exact ⟨b1, b2, b3, b4, v1, v2, c1, c2, c3, c4, c5, c6, c7, c8, c9⟩

theorem particles_update_bouncing_correct_witness :
    (0 < 1 ∧ 1 * 5 ≤ ([1, 2, 3, 4, 9] : List ℚ).length ∧
     1 * 5 ≤ afferent_float_buffer_capacity (afferent_float_buffer_create 5) ∧
     2 * (2 : ℚ) ≤ 10 ∧ 2 * (2 : ℚ) ≤ 10) ∧
    (lean_afferent_particles_update_bouncing_and_write_sprites
        [1, 2, 3, 4, 9] 1 1 2 10 10 (afferent_float_buffer_create 5)).1.getD 0 0
      = (particleStep [1, 2, 3, 4, 9] 0 1 2 10 10).1 :=
  ⟨⟨by decide, by decide, by decide, by norm_num, by norm_num⟩,
   (particles_update_bouncing_correct.1 [1, 2, 3, 4, 9] 1 1 2 10 10
     (afferent_float_buffer_create 5) (by decide) (by decide) (by decide)
     (by norm_num) (by norm_num) 0 (by decide)).2.2.2.2.2.2.1⟩

/-! ### Checked-write equivalences -/

theorem set_vec5_checked_eq (b : AfferentFloatBuffer) (idx : ℕ) (v0 v1 v2 v3 v4 : ℚ)
    (h : idx + 5 ≤ afferent_float_buffer_capacity b) :
    afferent_float_buffer_set_vec5_checked b idx v0 v1 v2 v3 v4 =
      some (afferent_float_buffer_set_vec5 b idx v0 v1 v2 v3 v4) := by
  unfold afferent_float_buffer_capacity at h
  have h0 : idx < b.data.length := by omega
  have h1 : idx + 1 < b.data.length := by omega
  have h2 : idx + 2 < b.data.length := by omega
  have h3 : idx + 3 < b.data.length := by omega
  have h4 : idx + 4 < b.data.length := by omega
  simp only [afferent_float_buffer_set_vec5_checked, afferent_float_buffer_set_checked,
    afferent_float_buffer_set, afferent_float_buffer_set_vec5,
    afferent_float_buffer_capacity, List.length_set, Option.some_bind,
    if_pos h0, if_pos h1, if_pos h2, if_pos h3, if_pos h4]

theorem spriteBodyChecked_eq (dt hS w h : ℚ) (st : List ℚ × AfferentFloatBuffer)
    (i : ℕ) (hb : i * 5 + 5 ≤ st.2.data.length) :
    spriteBodyChecked dt hS w h st i = some (spriteBody dt hS w h st i) := by
  have h0 : i * 5 < st.2.data.length := by omega
  have h1 : i * 5 + 1 < st.2.data.length := by omega
  have h2 : i * 5 + 2 < st.2.data.length := by omega
  have h3 : i * 5 + 3 < st.2.data.length := by omega
  have h4 : i * 5 + 4 < st.2.data.length := by omega
  simp only [spriteBodyChecked, spriteBody, afferent_float_buffer_set_checked,
    afferent_float_buffer_set, afferent_float_buffer_capacity, List.length_set,
    Option.some_bind, Option.map_some', if_pos h0, if_pos h1, if_pos h2,
    if_pos h3, if_pos h4]

theorem circleBodyChecked_eq (dt rad w h : ℚ) (st : List ℚ × AfferentFloatBuffer)
    (i : ℕ) (hb : i * 4 + 4 ≤ st.2.data.length) :
    circleBodyChecked dt rad w h st i = some (circleBody dt rad w h st i) := by
  have h0 : i * 4 < st.2.data.length := by omega
  have h1 : i * 4 + 1 < st.2.data.length := by omega
  have h2 : i * 4 + 2 < st.2.data.length := by omega
  have h3 : i * 4 + 3 < st.2.data.length := by omega
  simp only [circleBodyChecked, circleBody, afferent_float_buffer_set_checked,
    afferent_float_buffer_set, afferent_float_buffer_capacity, List.length_set,
    Option.some_bind, Option.map_some', if_pos h0, if_pos h1, if_pos h2,
    if_pos h3]

/-! ### Claim C10 -/

/-- Claim C10: every bulk-write bridge path guards before writing. If the
count is zero, the particle array holds fewer than `5 * count` floats, or
the destination capacity is below the required output size (`5 * count` for
sprites, `4 * count` for circles), the call leaves the FloatBuffer and the
particle data unchanged. When the guards pass, replaying every FloatBuffer
store through the bounds-checked writer succeeds and produces the same
result: every index written is strictly below the capacity. -/
theorem bulk_write_guard_safety :
    (∀ (buf : AfferentFloatBuffer) (p : List ℚ) (count : ℕ) (hS rot al : ℚ),
      count = 0 ∨ p.length < count * 5 ∨
          afferent_float_buffer_capacity buf < count * 5 →
      lean_afferent_float_buffer_write_sprites_from_particles buf p count hS rot al
        = buf) ∧
    (∀ (p : List ℚ) (count : ℕ) (dt hS w h : ℚ) (buf : AfferentFloatBuffer),
      count = 0 ∨ p.length < count * 5 ∨
          afferent_float_buffer_capacity buf < count * 5 →
      lean_afferent_particles_update_bouncing_and_write_sprites p count dt hS w h buf
        = (p, buf)) ∧
    (∀ (p : List ℚ) (count : ℕ) (dt rad w h : ℚ) (buf : AfferentFloatBuffer),
      count = 0 ∨ p.length < count * 5 ∨
          afferent_float_buffer_capacity buf < count * 4 →
      lean_afferent_particles_update_bouncing_and_write_circles p count dt rad w h buf
        = (p, buf)) ∧
    (∀ (buf : AfferentFloatBuffer) (p : List ℚ) (count : ℕ) (hS rot al : ℚ),
      0 < count → count * 5 ≤ p.length →
      count * 5 ≤ afferent_float_buffer_capacity buf →
      write_sprites_from_particles_checked buf p count hS rot al =
        some (lean_afferent_float_buffer_write_sprites_from_particles
          buf p count hS rot al)) ∧
    (∀ (p : List ℚ) (count : ℕ) (dt hS w h : ℚ) (buf : AfferentFloatBuffer),
      0 < count → count * 5 ≤ p.length →
      count * 5 ≤ afferent_float_buffer_capacity buf →
      update_bouncing_and_write_sprites_checked p count dt hS w h buf =
        some (lean_afferent_particles_update_bouncing_and_write_sprites
          p count dt hS w h buf)) ∧
    (∀ (p : List ℚ) (count : ℕ) (dt rad w h : ℚ) (buf : AfferentFloatBuffer),
      0 < count → count * 5 ≤ p.length →
      count * 4 ≤ afferent_float_buffer_capacity buf →
      update_bouncing_and_write_circles_checked p count dt rad w h buf =
        some (lean_afferent_particles_update_bouncing_and_write_circles
          p count dt rad w h buf)) := by
  refine ⟨?_, ?_, ?_, ?_, ?_, ?_⟩
  · intro buf p count hS rot al hg
    unfold lean_afferent_float_buffer_write_sprites_from_particles
    rcases hg with h | h | h
    · rw [if_pos (Or.inl h)]
    · rw [if_pos (Or.inr h)]
    · by_cases hc : count = 0 ∨ p.length < count * 5
      · rw [if_pos hc]
      · rw [if_neg hc, if_pos h]
  · intro p count dt hS w h buf hg
    unfold lean_afferent_particles_update_bouncing_and_write_sprites
    rcases hg with h1 | h1 | h1
    · rw [if_pos h1]
    · by_cases hc : count = 0
      · rw [if_pos hc]
      · rw [if_neg hc, if_pos h1]
    · by_cases hc : count = 0
      · rw [if_pos hc]
      · rw [if_neg hc]
        by_cases hl : p.length < count * 5
        · rw [if_pos hl]
        · rw [if_neg hl, if_pos h1]
  · intro p count dt rad w h buf hg
    unfold lean_afferent_particles_update_bouncing_and_write_circles
    rcases hg with h1 | h1 | h1
    · rw [if_pos h1]
    · by_cases hc : count = 0
      · rw [if_pos hc]
      · rw [if_neg hc, if_pos h1]
    · by_cases hc : count = 0
      · rw [if_pos hc]
      · rw [if_neg hc]
        by_cases hl : p.length < count * 5
        · rw [if_pos hl]
        · rw [if_neg hl, if_pos h1]
  · intro buf p count hS rot al hcount hlen hcap
    have hcap2 : count * 5 ≤ buf.data.length := hcap
    have hg1 : ¬(count = 0 ∨ p.length < count * 5) := by omega
    have hg2 : ¬ afferent_float_buffer_capacity buf < count * 5 := Nat.not_lt.2 hcap
    unfold write_sprites_from_particles_checked
      lean_afferent_float_buffer_write_sprites_from_particles
    rw [if_neg hg1, if_neg hg1, if_neg hg2, if_neg hg2]
    exact foldl_range_bind_eq_some
      (fun b i => afferent_float_buffer_set_vec5 b (i * 5) (p.getD (i * 5) 0)
        (p.getD (i * 5 + 1) 0) rot hS al)
      (fun b i => afferent_float_buffer_set_vec5_checked b (i * 5) (p.getD (i * 5) 0)
        (p.getD (i * 5 + 1) 0) rot hS al)
      (fun b => b.data.length = buf.data.length) count buf
      (fun s i hi hs => by
        simp only [afferent_float_buffer_set_vec5, List.length_set]
        exact hs)
      (fun s i hi hs => set_vec5_checked_eq s (i * 5) _ _ _ _ _
        (by show i * 5 + 5 ≤ s.data.length; omega))
      rfl
  · intro p count dt hS w h buf hcount hlen hcap
    have hcap2 : count * 5 ≤ buf.data.length := hcap
    have hg0 : ¬ count = 0 := by omega
    have hg1 : ¬ p.length < count * 5 := by omega
    have hg2 : ¬ afferent_float_buffer_capacity buf < count * 5 := Nat.not_lt.2 hcap
    unfold update_bouncing_and_write_sprites_checked
      lean_afferent_particles_update_bouncing_and_write_sprites
    rw [if_neg hg0, if_neg hg0, if_neg hg1, if_neg hg1, if_neg hg2, if_neg hg2]
    exact foldl_range_bind_eq_some (spriteBody dt hS w h)
      (fun st i => spriteBodyChecked dt hS w h st i)
      (fun st => st.2.data.length = buf.data.length) count (p, buf)
      (fun s i hi hs => by
        show (spriteBody dt hS w h s i).2.data.length = buf.data.length
        rw [(spriteBody_lengths dt hS w h s i).2]
        exact hs)
      (fun s i hi hs => spriteBodyChecked_eq dt hS w h s i (by omega))
      rfl
  · intro p count dt rad w h buf hcount hlen hcap
    have hcap2 : count * 4 ≤ buf.data.length := hcap
    have hg0 : ¬ count = 0 := by omega
    have hg1 : ¬ p.length < count * 5 := by omega
    have hg2 : ¬ afferent_float_buffer_capacity buf < count * 4 := Nat.not_lt.2 hcap
    unfold update_bouncing_and_write_circles_checked
      lean_afferent_particles_update_bouncing_and_write_circles
    rw [if_neg hg0, if_neg hg0, if_neg hg1, if_neg hg1, if_neg hg2, if_neg hg2]
    exact foldl_range_bind_eq_some (circleBody dt rad w h)
      (fun st i => circleBodyChecked dt rad w h st i)
      (fun st => st.2.data.length = buf.data.length) count (p, buf)
      (fun s i hi hs => by
        show (circleBody dt rad w h s i).2.data.length = buf.data.length
        rw [(circleBody_lengths dt rad w h s i).2]
        exact hs)
      (fun s i hi hs => circleBodyChecked_eq dt rad w h s i (by omega))
      rfl

theorem bulk_write_guard_safety_witness :
    ((0 : ℕ) = 0 ∨ ([] : List ℚ).length < 0 * 5 ∨
       afferent_float_buffer_capacity (afferent_float_buffer_create 5) < 0 * 5) ∧
    lean_afferent_float_buffer_write_sprites_from_particles
      (afferent_float_buffer_create 5) [] 0 1 0 1 = afferent_float_buffer_create 5 ∧
    (0 < 1 ∧ 1 * 5 ≤ ([1, 2, 3, 4, 9] : List ℚ).length ∧
     1 * 5 ≤ afferent_float_buffer_capacity (afferent_float_buffer_create 5)) ∧
    write_sprites_from_particles_checked (afferent_float_buffer_create 5)
        [1, 2, 3, 4, 9] 1 2 0 1 =
      some (lean_afferent_float_buffer_write_sprites_from_particles
        (afferent_float_buffer_create 5) [1, 2, 3, 4, 9] 1 2 0 1) :=
  ⟨Or.inl rfl,
   bulk_write_guard_safety.1 (afferent_float_buffer_create 5) [] 0 1 0 1 (Or.inl rfl),
   ⟨by decide, by decide, by decide⟩,
   bulk_write_guard_safety.2.2.2.1 (afferent_float_buffer_create 5) [1, 2, 3, 4, 9]
     1 2 0 1 (by decide) (by decide) (by decide)⟩
